import Mathlib

/-!
Formal model of the speech orchestration engine of ubuntu-read-aloud
(`src/src/tts/tts_engine.py` and `src/src/utils/direct_reader.py`).

Python floats are modelled as rationals; Python `int(x)` truncation is
modelled by `Int.floor` (all truncated values in this development are
nonnegative, where truncation and floor agree).  Calls into the operating
system (subprocess spawns, `which` lookups, the pyttsx3 library) are
modelled by explicit environment parameters describing their outcome.
-/

namespace TTSEngine

/-- The three engine kinds of `TTSEngine` (class constants `ENGINE_PIPER`,
`ENGINE_DIRECT`, `ENGINE_PYTTSX3`). -/
inductive EngineType
  | piper
  | direct
  | pyttsx3
deriving DecidableEq, Repr

/-- Outcome of one `subprocess.check_call` lookup in
`_check_command_exists`: the looked-up tool ran and exited 0, ran and
exited nonzero (raising `CalledProcessError`), or the lookup tool itself
is absent (raising `FileNotFoundError`, an `OSError`). -/
inductive CallResult
  | exitZero
  | calledProcessError
  | fileNotFound
deriving DecidableEq, Repr

/-- Result of running `_check_command_exists`: a returned boolean, or an
uncaught Python exception escaping the function. -/
inductive CheckResult
  | ok (b : Bool)
  | raises (e : String)
deriving DecidableEq, Repr

/-- `TTSEngine._check_command_exists` (tts_engine.py lines 806-817):
`check_call(["which", cmd])` inside a `try` whose only handler catches
`subprocess.CalledProcessError`; on that error a second
`check_call(["where", cmd])` is tried, again catching only
`CalledProcessError` and returning `False`.  A `FileNotFoundError` from
either lookup matches neither handler and escapes. -/
def check_command_exists (whichRes whereRes : CallResult) : CheckResult :=
  match whichRes with
  | .exitZero => .ok true
  | .calledProcessError =>
    match whereRes with
    | .exitZero => .ok true
    | .calledProcessError => .ok false
    | .fileNotFound => .raises "FileNotFoundError"
  | .fileNotFound => .raises "FileNotFoundError"

/-- espeak volume argument in `_direct_speech` (line 735):
`int(max(30, min(100, volume * 100)))`. -/
def espeakVolume (volume : ℚ) : ℤ := Int.floor (max 30 (min 100 (volume * 100)))

/-- Native volume factor on the Piper streaming path: `stream_audio`
(lines 646-648) multiplies each sample block by the raw saved volume. -/
def piperVolumeScale (volume : ℚ) : ℚ := volume

/-- `set_volume` (lines 132-149) passes the generic volume unchanged to
the pyttsx3 `volume` property. -/
def pyttsx3Volume (volume : ℚ) : ℚ := volume

/-- `set_rate` (line 122): the pyttsx3 engine rate property is set to
`int(rate * 1.2)`. -/
def pyttsx3Rate (rate : ℤ) : ℤ := Int.floor ((rate : ℚ) * (6 / 5))

/-- `speak` (lines 303-310) snapshots `_saved_settings["rate"]` from
`engine.getProperty("rate")` whenever the pyttsx3 engine object exists;
after a `set_rate(r)` that property holds `pyttsx3Rate r`, not the
generic rate `r`. -/
def savedRateAtSpeak (genericRate : ℤ) : ℤ := pyttsx3Rate genericRate

/-- espeak rate argument in `_direct_speech` (line 746), computed from the
stored rate: `int(120 + (stored - 50) * 0.4)`.  No clamping is applied. -/
def espeakRate (stored : ℤ) : ℤ :=
  Int.floor ((120 : ℚ) + ((stored : ℚ) - 50) * (2 / 5))

/-- Piper length scale in `_piper_speech` (lines 588-594):
`1.5 - ((stored - 50) / 250)`, clamped to `[0.5, 1.5]` by
`max(0.5, min(1.5, rate))`. -/
def piperLengthScale (stored : ℤ) : ℚ :=
  max (1 / 2) (min (3 / 2) ((3 / 2) - ((stored : ℚ) - 50) / 250))

/-- Availability facts recorded by `__init__` (lines 37-78): the two
probe results, whether the pyttsx3 engine object was created, and the
cached Piper voice list (empty whenever the Piper probe failed). -/
structure ProbeEnv where
  usePiper : Bool
  useDirectSpeech : Bool
  hasPyttsx3Engine : Bool
  piperVoices : List String
deriving DecidableEq, Repr

/-- `get_available_engines` (lines 229-242): appends Piper, direct
speech and pyttsx3 entries, in that fixed order, each guarded by its
availability flag. -/
def get_available_engines (e : ProbeEnv) : List (EngineType × String) :=
  (if e.usePiper then [(EngineType.piper, "Piper TTS (High Quality)")] else []) ++
  (if e.useDirectSpeech then [(EngineType.direct, "Direct Speech (System)")] else []) ++
  (if e.hasPyttsx3Engine then [(EngineType.pyttsx3, "pyttsx3 (Basic)")] else [])

/-- Availability of one engine kind in terms of the probe results. -/
def engineAvailable (e : ProbeEnv) : EngineType → Bool
  | .piper => e.usePiper
  | .direct => e.useDirectSpeech
  | .pyttsx3 => e.hasPyttsx3Engine

/-- Default active engine selected by `__init__` (lines 37-78): Piper if
its probe succeeded and at least one Piper voice was cached, else direct
speech if available, else pyttsx3 if the engine object exists, else
none. -/
def initActiveEngine (e : ProbeEnv) : Option EngineType :=
  if e.usePiper ∧ e.piperVoices ≠ [] then some .piper
  else if e.useDirectSpeech then some .direct
  else if e.hasPyttsx3Engine then some .pyttsx3
  else none

/-- Behaviour of one `_piper_speech` call (lines 572-724), as seen from
the outside:
* `started`: either the Python-API streaming path or the command-line
  path launched successfully; `_piper_speech` returns `True` and the
  background thread (`stream_audio` lines 641-661, or `monitor_process`
  lines 705-711) invokes the callback exactly once when playback ends or
  errors.
* `raisesExn`: an exception reaches the outer handler (lines 719-724),
  which invokes the callback immediately and returns `False`. -/
inductive PiperRun
  | started
  | raisesExn
deriving DecidableEq, Repr

/-- Behaviour of one `_direct_speech` call (lines 726-804):
* `espeakOk`, `sayOk`, `powershellOk`: the corresponding command was
  found and spawned; the function returns `True` and its
  `monitor_process` thread invokes the callback exactly once when the
  process exits.
* `noCommand` (lines 797-798): none of the three commands exists;
  returns `False` without touching the callback.
* `raisesExn` (lines 800-804): an exception is caught, the callback is
  invoked, and `False` is returned. -/
inductive DirectRun
  | espeakOk
  | sayOk
  | powershellOk
  | noCommand
  | raisesExn
deriving DecidableEq, Repr

/-- Environment of one `speak(text, callback)` call with a non-null
callback: the configuration read by the fallback chain and the outcome
of each external interaction it may perform. -/
structure SpeakEnv where
  activeEngine : Option EngineType
  usePiper : Bool
  useDirectSpeech : Bool
  /-- whether `active_voice` is non-null (checked at line 574) -/
  hasActiveVoice : Bool
  piperRun : PiperRun
  directRun : DirectRun
  /-- result of `_initialize_engine()` at the last-resort stage (line 342) -/
  initOk : Bool
  /-- bad-state detection at thread start (line 358): the pyttsx3 proxy
      driver is missing -/
  engineBad : Bool
  /-- result of the reinitialization attempted for a bad engine (line 360) -/
  reinitOk : Bool
  /-- whether `runAndWait()` (line 419) ever returns.  `false` models a
      backend that accepted the utterance but never produces output and
      never returns: a hung backend. -/
  runReturns : Bool
deriving DecidableEq, Repr

/-- Return value and number of callback invocations (immediate plus
eventual, over the whole run) of `_piper_speech`. -/
def piper_speech (e : SpeakEnv) : Bool × Nat :=
  if ¬ e.usePiper ∨ ¬ e.hasActiveVoice then (false, 0)
  else
    match e.piperRun with
    | .started => (true, 1)
    | .raisesExn => (false, 1)

/-- Return value and number of callback invocations of `_direct_speech`. -/
def direct_speech (e : SpeakEnv) : Bool × Nat :=
  match e.directRun with
  | .espeakOk => (true, 1)
  | .sayOk => (true, 1)
  | .powershellOk => (true, 1)
  | .noCommand => (false, 0)
  | .raisesExn => (false, 1)

/-- Outcome of a `speak` call once every spawned worker has run as far
as it ever will: how many times the callback of this call is invoked in
total, and whether some worker is left blocked forever with no
completion delivered. -/
structure SpeakOutcome where
  callbackCount : Nat
  hung : Bool
deriving DecidableEq, Repr

/-- The `speak_thread` closure (lines 349-439).  Within the thread body
every direct callback invocation is guarded by the local flag
`finish_callback_called`, so the body itself contributes at most one
invocation; but the `_direct_speech` retry on the bad-engine path (line
363) registers an unguarded monitor-thread invocation of its own.  The
local variable `speech_started`, set by the `started-word` and
`started-utterance` handlers, is never read anywhere in the thread, and
no timer construct exists: when `runAndWait` never returns the thread
blocks forever, delivering nothing. -/
def speak_thread (e : SpeakEnv) : SpeakOutcome :=
  if e.engineBad ∧ ¬ e.reinitOk then
    let r := direct_speech e
    if r.1 then ⟨r.2, false⟩
    else ⟨r.2 + 1, false⟩
  else if e.runReturns then ⟨1, false⟩
  else ⟨0, true⟩

/-- `speak` (lines 279-439), for a call with a non-null callback: the
Piper attempt when Piper is the active engine, then the direct-speech
attempt when direct is active or Piper just failed with direct
available, then the pyttsx3 last resort (immediate callback when even
`_initialize_engine` fails, else `speak_thread`).  The callback count
sums the invocations registered by every attempt on the path taken. -/
def speak (e : SpeakEnv) : SpeakOutcome :=
  let p := if e.activeEngine = some .piper then piper_speech e else (false, 0)
  if p.1 then ⟨p.2, false⟩
  else
    let tryDirect := e.activeEngine = some .direct ∨
      (e.activeEngine = some .piper ∧ e.useDirectSpeech)
    let d := if tryDirect then direct_speech e else (false, 0)
    if d.1 then ⟨p.2 + d.2, false⟩
    else if ¬ e.initOk then ⟨p.2 + d.2 + 1, false⟩
    else
      let t := speak_thread e
      ⟨p.2 + d.2 + t.callbackCount, t.hung⟩

/-- The `monitor_process` closure registered by `_direct_speech` (lines
754-758): once its subprocess exits — for any reason, including being
killed by `_kill_speech_process` on behalf of a newer `speak` call — it
sets `is_speaking` to `False` and unconditionally invokes the callback
it captured.  Nothing records or checks whether the session it belongs
to has been superseded. -/
def monitor_process (hasCallback : Bool) : Nat := if hasCallback then 1 else 0

/-- Mutable playback state touched by `stop`. -/
structure PlayState where
  isSpeaking : Bool
  paused : Bool
  currentPosition : Nat
  processLive : Bool
deriving DecidableEq, Repr

/-- `stop` (lines 441-472): returns immediately when not speaking;
otherwise kills the live speech process, stops the pyttsx3 engine, and
in the `finally` block resets `is_speaking`, `paused` and
`_current_position`. -/
def stop (s : PlayState) : PlayState :=
  if ¬ s.isSpeaking then s
  else { isSpeaking := false, paused := false, currentPosition := 0, processLive := false }

/-- Callback deliveries when `speak(text2, cb2)` supersedes a live
direct-speech session holding `cb1`: `speak` first runs `stop`, which
kills the live process; the superseded session still has its
`monitor_process` thread pending on that process, whose `wait()` now
returns, so `cb1` is delivered by `monitor_process`.  The second
component is the delivery count for `cb2` from the new `speak` run. -/
def supersededCallbacks (e2 : SpeakEnv) : Nat × Nat :=
  (monitor_process true, (speak e2).callbackCount)

/-- Engine and voice configuration state read and written by
`set_engine` and `set_voice`, together with the environment facts those
methods consult (`engine.getProperty("voices")` modelled as `none` when
it raises, `engine.setProperty("voice", id)` success as a flag). -/
structure ConfigState where
  activeEngine : Option String
  activeVoice : Option String
  usePiper : Bool
  useDirectSpeech : Bool
  hasEngine : Bool
  piperVoices : List String
  pyttsxVoices : Option (List String)
  setVoicePropOk : Bool
  isSpeaking : Bool
deriving DecidableEq, Repr

/-- `set_engine` (lines 151-187): rejects unknown engine names and
unavailable engines without touching state; otherwise stores the new
active engine and resets the active voice — first cached Piper voice
when switching to Piper with a non-empty cache, first pyttsx3 voice for
pyttsx3 (`None` when the voice query raises, and, by the `if voices:`
guard at line 178, unchanged when the query returns an empty list), and
`None` in every other case (direct speech, or Piper with an empty
cache). -/
def set_engine (s : ConfigState) (t : String) : ConfigState × Bool :=
  if t ≠ "piper" ∧ t ≠ "direct" ∧ t ≠ "pyttsx3" then (s, false)
  else if t = "piper" ∧ ¬ s.usePiper then (s, false)
  else if t = "direct" ∧ ¬ s.useDirectSpeech then (s, false)
  else if t = "pyttsx3" ∧ ¬ s.hasEngine then (s, false)
  else
    let s1 := { s with activeEngine := some t }
    if t = "piper" ∧ s.piperVoices ≠ [] then
      ({ s1 with activeVoice := s.piperVoices.head? }, true)
    else if t = "pyttsx3" then
      match s.pyttsxVoices with
      | none => ({ s1 with activeVoice := none }, true)
      | some l =>
        if l ≠ [] then ({ s1 with activeVoice := l.head? }, true)
        else (s1, true)
    else ({ s1 with activeVoice := none }, true)

/-- `set_voice` (lines 189-227): returns `False` for a null voice id;
when an engine type is supplied it first runs `set_engine` (line 196)
and propagates its failure; then, per active engine: Piper accepts only
a cached voice name, pyttsx3 accepts the id when `setProperty` does not
raise, direct speech always reports failure, and so does the final
catch-all. -/
def set_voice (s : ConfigState) (voiceId : Option String) (engineType : Option String) :
    ConfigState × Bool :=
  match voiceId with
  | none => (s, false)
  | some vid =>
    let r := match engineType with
      | some et => set_engine s et
      | none => (s, true)
    if ¬ r.2 then (r.1, false)
    else if r.1.activeEngine = some "piper" then
      if r.1.piperVoices.contains vid then ({ r.1 with activeVoice := some vid }, true)
      else (r.1, false)
    else if r.1.activeEngine = some "pyttsx3" then
      if r.1.setVoicePropOk then ({ r.1 with activeVoice := some vid }, true)
      else (r.1, false)
    else (r.1, false)

/-- The method names defined on class `TTSEngine` in
`src/src/tts/tts_engine.py` (every `def` in the class body). -/
def ttsEngineMethods : List String :=
  ["__init__", "_initialize_engine", "set_rate", "set_volume", "set_engine",
   "set_voice", "get_available_engines", "get_voices_for_engine",
   "get_available_voices", "speak", "stop", "is_busy", "restart_engine",
   "debug_engine_info", "cleanup", "_piper_speech", "_direct_speech",
   "_check_command_exists", "_kill_speech_process",
   "_check_direct_speech_available", "_check_piper_available",
   "_get_piper_voices"]

/-- Whether the attribute lookup `self.tts_engine.pause` succeeds. -/
def hasAttrPause : Bool := ttsEngineMethods.contains "pause"

/-- Whether the attribute lookup `self.tts_engine.resume` succeeds. -/
def hasAttrResume : Bool := ttsEngineMethods.contains "resume"

end TTSEngine

namespace ReaderController

open TTSEngine

/-- Joint state of the mini controller and the engine fields relevant to
pause and resume: the text and tracked offset of the current session,
whether speech is running, the controller playing flag, how many error
dialogs were shown, and which texts were newly passed to
`tts_engine.speak` by controller handlers. -/
structure CState where
  currentText : Option String
  currentPosition : Nat
  isSpeaking : Bool
  isPlaying : Bool
  errorDialogs : Nat
  spokenTexts : List String
deriving DecidableEq, Repr

/-- `ReaderController.on_play_clicked` (direct_reader.py lines 242-262):
when playing it executes `self.tts_engine.pause()`, otherwise
`self.tts_engine.resume()`.  `TTSEngine` defines neither method (see
`ttsEngineMethods`), so the attribute lookup raises `AttributeError`
before anything else runs; the `except` branch calls
`_update_ui_after_reading` (which clears `is_playing`) and shows an
error dialog.  The engine state is untouched and no new `speak` call is
issued.  The guarded branches returning the state unchanged are
unreachable, since the attribute lookups provably fail. -/
def on_play_clicked (s : CState) : CState :=
  if s.isPlaying then
    if hasAttrPause then s
    else { s with isPlaying := false, errorDialogs := s.errorDialogs + 1 }
  else
    if hasAttrResume then s
    else { s with isPlaying := false, errorDialogs := s.errorDialogs + 1 }

end ReaderController

section ConfigLemmas

open TTSEngine

/-- Helper: a failing `set_engine` call leaves the state unchanged. -/
theorem set_engine_fail_frame (s : ConfigState) (t : String)
    (h : (set_engine s t).2 = false) : (set_engine s t).1 = s := by
  unfold set_engine at h ⊢
  rcases hv : s.pyttsxVoices with _ | l <;> simp only [hv] at h ⊢ <;>
    split_ifs at h ⊢ <;> simp_all

/-- Helper: a successful `set_engine` call stores the requested engine
and sets the voice to the default described by the branch structure of
lines 172-186. -/
theorem set_engine_success_voice (s : ConfigState) (t : String)
    (h : (set_engine s t).2 = true) :
    (set_engine s t).1.activeEngine = some t ∧
    (t = "piper" → (set_engine s t).1.activeVoice = s.piperVoices.head?) ∧
    (t = "pyttsx3" →
      (set_engine s t).1.activeVoice =
        (match s.pyttsxVoices with
         | none => none
         | some [] => s.activeVoice
         | some (v :: _) => some v)) ∧
    (t = "direct" → (set_engine s t).1.activeVoice = none) := by
  unfold set_engine at h ⊢
  rcases hv : s.pyttsxVoices with _ | l
  · simp only [hv] at h ⊢
    split_ifs at h ⊢ <;> simp_all
  · rcases l with _ | ⟨v, l⟩ <;> simp only [hv] at h ⊢ <;>
      split_ifs at h ⊢ <;> simp_all

/-- Helper: a failing `set_voice` call without an engine type leaves the
state unchanged. -/
theorem set_voice_none_fail_frame (s : ConfigState) (vid : String)
    (h : (set_voice s (some vid) none).2 = false) :
    (set_voice s (some vid) none).1 = s := by
  simp only [set_voice] at h ⊢
  split_ifs at h ⊢ <;> simp_all

/-- Helper: a failing `set_voice` call with an engine type leaves the
state either unchanged (the engine switch itself failed) or exactly in
the post-`set_engine` state with its default voice. -/
theorem set_voice_some_fail_frame (s : ConfigState) (vid et : String)
    (h : (set_voice s (some vid) (some et)).2 = false) :
    (set_voice s (some vid) (some et)).1 = s ∨
    (set_voice s (some vid) (some et)).1 = (set_engine s et).1 := by
  simp only [set_voice] at h ⊢
  split_ifs at h ⊢ <;> simp_all [set_engine_fail_frame]

end ConfigLemmas


section ClaimTheorems

open TTSEngine

/-- Environment of the C1 counterexample run: Piper is the active
engine with a voice, `_piper_speech` fails with an exception reaching
its outer handler, direct speech is available and its espeak spawn
succeeds. -/
def c1Env : SpeakEnv :=
  { activeEngine := some .piper, usePiper := true, useDirectSpeech := true,
    hasActiveVoice := true, piperRun := .raisesExn, directRun := .espeakOk,
    initOk := true, engineBad := false, reinitOk := true, runReturns := true }

/-- C1: the claim that `speak(text, callback)` invokes the callback
exactly once on every code path, including across fallback attempts, is
violated by the code: when the active Piper backend fails with an
exception, the handler at tts_engine.py lines 719-724 invokes the
callback and returns `False`, after which `speak` falls back to direct
speech, whose monitor thread invokes the same callback a second time
when the espeak process exits.  The callback fires twice, not once. -/
theorem piper_error_then_fallback_double_callback :
    (TTSEngine.speak c1Env).callbackCount = 2 ∧
    ¬ (TTSEngine.speak c1Env).callbackCount = 1 := by decide

/-- Environment of the superseding second `speak` call in the C2
scenario: direct speech is the active engine and its espeak spawn
succeeds, so the new session completes normally. -/
def c2Env : SpeakEnv :=
  { activeEngine := some .direct, usePiper := false, useDirectSpeech := true,
    hasActiveVoice := false, piperRun := .started, directRun := .espeakOk,
    initOk := true, engineBad := false, reinitOk := true, runReturns := true }

/-- C2 counterexample: the claim says the superseded session invokes its
callback zero times after the second `speak` call.  In the code, the
superseded direct-speech session still delivers its callback: `stop`
kills the process, the pending `monitor_process` thread observes the
exit and unconditionally calls the captured callback (tts_engine.py
lines 754-758) — so the first component is 1, not 0. -/
theorem superseded_callback_delivered :
    ¬ (TTSEngine.supersededCallbacks c2Env).1 = 0 := by decide

/-- C2 amended: when a `speak` call supersedes a live direct-speech
session, the new session invokes its own callback exactly once (on the
normal completion path) and the superseded session's callback is also
delivered exactly once by its pending monitor thread — superseded
completions are delivered, not discarded. -/
theorem supersede_delivers_both_callbacks :
    TTSEngine.supersededCallbacks c2Env = (1, 1) := rfl

/-- C3: the claim that `_check_command_exists` never raises is violated:
its two handlers catch only `subprocess.CalledProcessError`, so a
`FileNotFoundError` from a missing lookup tool escapes.  On a Linux
system the first lookup exits nonzero for an absent command and the
`where` lookup tool itself does not exist, and when `which` itself is
missing the very first lookup raises. -/
theorem check_command_exists_raises_when_lookup_missing :
    TTSEngine.check_command_exists .calledProcessError .fileNotFound =
      .raises "FileNotFoundError" ∧
    TTSEngine.check_command_exists .fileNotFound .exitZero =
      .raises "FileNotFoundError" ∧
    TTSEngine.check_command_exists .calledProcessError .calledProcessError =
      .ok false := by decide

/-- C4: the claim that Pause followed by Resume speaks the remaining
suffix of the text from the tracked offset is violated: `TTSEngine`
defines no `pause` or `resume` method at all, so both clicks of the
controller's play/pause button raise `AttributeError`, each showing an
error dialog; the engine keeps speaking the full original text at its
tracked position, no new `speak` call is issued, and in particular the
suffix is never spoken. -/
theorem pause_resume_missing_no_suffix_speech :
    TTSEngine.hasAttrPause = false ∧ TTSEngine.hasAttrResume = false ∧
    ∀ (t : String) (p : Nat),
      ReaderController.on_play_clicked
          (ReaderController.on_play_clicked ⟨some t, p, true, true, 0, []⟩) =
        ⟨some t, p, true, false, 2, []⟩ := by
  refine ⟨by decide, by decide, fun t p => rfl⟩

/-- C5: the claim that every native rate computed from a generic rate in
[50, 300] lies in the backend's documented range is violated via the
stored engine rate: `set_rate(300)` stores 360 in the pyttsx3 rate
property, `speak` snapshots that 360 as the saved rate, and
`_direct_speech` turns it into espeak rate 244 with no clamping —
outside the documented [120, 220] mapping. -/
theorem espeak_rate_out_of_range_via_stored_engine_rate :
    TTSEngine.savedRateAtSpeak 300 = 360 ∧
    TTSEngine.espeakRate 360 = 244 ∧
    ¬ ((244 : ℤ) ≤ 220) ∧
    TTSEngine.espeakRate 300 = 220 := by
  refine ⟨?_, ?_, by decide, ?_⟩ <;>
    norm_num [TTSEngine.savedRateAtSpeak, TTSEngine.pyttsx3Rate, TTSEngine.espeakRate]

/-- Environment of the C6 hung run: the pyttsx3 backend accepts the
utterance but never produces output and `runAndWait` never returns. -/
def c6Env : SpeakEnv :=
  { activeEngine := some .pyttsx3, usePiper := false, useDirectSpeech := false,
    hasActiveVoice := false, piperRun := .started, directRun := .noCommand,
    initOk := true, engineBad := false, reinitOk := true, runReturns := false }

/-- C6: the claim that a watchdog detects a backend that has not
observably started, kills the spawned process and advances to the next
backend is violated: no watchdog exists in the code.  The
`speech_started` flag is written by the event handlers but never read,
no timer is armed, and a backend that accepts input but never speaks
leaves the run hung forever: zero callback deliveries, no kill, no
fallback. -/
theorem hung_backend_no_watchdog_no_fallback :
    TTSEngine.speak c6Env = ⟨0, true⟩ := rfl

/-- C7: for each backend the native volume is monotone non-decreasing in
the generic volume, and the espeak volume at generic volume 0 is clamped
to the audible floor 30 rather than silence. -/
theorem native_volume_monotone_and_espeak_floor :
    (∀ v w : ℚ, v ≤ w → TTSEngine.espeakVolume v ≤ TTSEngine.espeakVolume w) ∧
    (∀ v w : ℚ, v ≤ w → TTSEngine.piperVolumeScale v ≤ TTSEngine.piperVolumeScale w) ∧
    (∀ v w : ℚ, v ≤ w → TTSEngine.pyttsx3Volume v ≤ TTSEngine.pyttsx3Volume w) ∧
    TTSEngine.espeakVolume 0 = 30 := by
  refine ⟨fun v w h => ?_, fun v w h => h, fun v w h => h, ?_⟩
  · exact Int.floor_le_floor
      (max_le_max le_rfl (min_le_min le_rfl (by nlinarith)))
  · norm_num [TTSEngine.espeakVolume]

/-- Witness for C7 at the concrete volumes 0 and 1. -/
theorem native_volume_monotone_and_espeak_floor_witness :
    TTSEngine.espeakVolume 0 ≤ TTSEngine.espeakVolume 1 ∧
    TTSEngine.piperVolumeScale 0 ≤ TTSEngine.piperVolumeScale 1 ∧
    TTSEngine.pyttsx3Volume 0 ≤ TTSEngine.pyttsx3Volume 1 ∧
    TTSEngine.espeakVolume 0 = 30 :=
  ⟨native_volume_monotone_and_espeak_floor.1 0 1 (by norm_num),
   native_volume_monotone_and_espeak_floor.2.1 0 1 (by norm_num),
   native_volume_monotone_and_espeak_floor.2.2.1 0 1 (by norm_num),
   native_volume_monotone_and_espeak_floor.2.2.2⟩

/-- C8: the engine list always comes back in the fixed preference order
Piper, direct, pyttsx3 restricted to the available ones, and in the
scenario where the Piper probe fails and the direct-speech probe
succeeds the list is direct followed by pyttsx3 when initialized, with
direct speech chosen as the startup default. -/
theorem available_engines_order_and_default :
    (∀ e : ProbeEnv,
      (TTSEngine.get_available_engines e).map Prod.fst =
        [EngineType.piper, EngineType.direct, EngineType.pyttsx3].filter
          (engineAvailable e)) ∧
    (∀ e : ProbeEnv, e.usePiper = false → e.useDirectSpeech = true →
      (TTSEngine.get_available_engines e).map Prod.fst =
        EngineType.direct ::
          (if e.hasPyttsx3Engine then [EngineType.pyttsx3] else []) ∧
      TTSEngine.initActiveEngine e = some EngineType.direct) := by
  constructor
  · rintro ⟨p, d, y, v⟩
    cases p <;> cases d <;> cases y <;>
      simp [TTSEngine.get_available_engines, engineAvailable, List.filter]
  · rintro ⟨p, d, y, v⟩ hp hd
    simp only at hp hd
    subst hp; subst hd
    cases y <;>
      simp [TTSEngine.get_available_engines, TTSEngine.initActiveEngine]

/-- Probe environment of the C8 scenario: Piper probe failed,
direct-speech probe succeeded, pyttsx3 engine initialized. -/
def c8Env : ProbeEnv :=
  { usePiper := false, useDirectSpeech := true, hasPyttsx3Engine := true,
    piperVoices := [] }

/-- Witness for C8 at the scenario environment. -/
theorem available_engines_order_and_default_witness :
    (TTSEngine.get_available_engines c8Env).map Prod.fst =
      EngineType.direct ::
        (if c8Env.hasPyttsx3Engine then [EngineType.pyttsx3] else []) ∧
    TTSEngine.initActiveEngine c8Env = some EngineType.direct :=
  available_engines_order_and_default.2 c8Env rfl rfl

/-- Configuration state of the C9 counterexample: direct speech active
with no voice, Piper available with one cached voice. -/
def c9State : ConfigState :=
  { activeEngine := some "direct", activeVoice := none, usePiper := true,
    useDirectSpeech := true, hasEngine := false,
    piperVoices := ["en_US-lessac-medium"], pyttsxVoices := none,
    setVoicePropOk := true, isSpeaking := false }

/-- C9 counterexample: the claim says every unsatisfiable `set_voice`
request returns failure with no state change.  But `set_voice` with an
explicit engine type first runs `set_engine` (tts_engine.py line 196):
requesting an unknown Piper voice switches the active engine to Piper
and resets the active voice to the Piper default before the lookup
fails, so the call reports failure with the state changed. -/
theorem set_voice_with_engine_mutates_state :
    (TTSEngine.set_voice c9State (some "bogus") (some "piper")).2 = false ∧
    ¬ (TTSEngine.set_voice c9State (some "bogus") (some "piper")).1 = c9State ∧
    (TTSEngine.set_voice c9State (some "bogus") (some "piper")).1.activeEngine =
      some "piper" ∧
    (TTSEngine.set_voice c9State (some "bogus") (some "piper")).1.activeVoice =
      some "en_US-lessac-medium" := by decide

/-- C9 amended: a failing `set_engine` leaves the state unchanged; a
failing `set_voice` without an engine type leaves the state unchanged;
and a failing `set_voice` with an engine type leaves the state either
unchanged or exactly in the post-`set_engine` state (engine switched,
voice reset to that engine's default). -/
theorem failed_config_state_change_characterization :
    (∀ (s : ConfigState) (t : String),
      (TTSEngine.set_engine s t).2 = false → (TTSEngine.set_engine s t).1 = s) ∧
    (∀ (s : ConfigState) (vid : String),
      (TTSEngine.set_voice s (some vid) none).2 = false →
        (TTSEngine.set_voice s (some vid) none).1 = s) ∧
    (∀ (s : ConfigState) (vid et : String),
      (TTSEngine.set_voice s (some vid) (some et)).2 = false →
        (TTSEngine.set_voice s (some vid) (some et)).1 = s ∨
        (TTSEngine.set_voice s (some vid) (some et)).1 =
          (TTSEngine.set_engine s et).1) :=
  ⟨set_engine_fail_frame, set_voice_none_fail_frame, set_voice_some_fail_frame⟩

/-- Configuration state used by the C9 witness. -/
def c9WitState : ConfigState :=
  { activeEngine := some "direct", activeVoice := none, usePiper := false,
    useDirectSpeech := true, hasEngine := false, piperVoices := [],
    pyttsxVoices := none, setVoicePropOk := true, isSpeaking := false }

/-- Witness for C9 at concrete inputs: an unknown engine name, a voice
request on the direct-speech engine without an engine type, and one with
an engine type. -/
theorem failed_config_state_change_characterization_witness :
    (TTSEngine.set_engine c9WitState "bark").1 = c9WitState ∧
    (TTSEngine.set_voice c9WitState (some "zzz") none).1 = c9WitState ∧
    ((TTSEngine.set_voice c9WitState (some "zzz") (some "direct")).1 = c9WitState ∨
     (TTSEngine.set_voice c9WitState (some "zzz") (some "direct")).1 =
       (TTSEngine.set_engine c9WitState "direct").1) :=
  ⟨failed_config_state_change_characterization.1 c9WitState "bark" (by decide),
   failed_config_state_change_characterization.2.1 c9WitState "zzz" (by decide),
   failed_config_state_change_characterization.2.2 c9WitState "zzz" "direct"
     (by decide)⟩

/-- Configuration state of the C10 counterexample: a previously selected
voice, pyttsx3 engine present whose voice query succeeds with an empty
list. -/
def c10State : ConfigState :=
  { activeEngine := some "direct", activeVoice := some "old-voice",
    usePiper := false, useDirectSpeech := true, hasEngine := true,
    piperVoices := [], pyttsxVoices := some [], setVoicePropOk := true,
    isSpeaking := false }

/-- C10 counterexample: the claim says a successful `set_engine` always
overwrites the active voice with the new engine's default (first pyttsx3
voice, or None on query failure).  When the pyttsx3 voice query succeeds
with an empty list, the `if voices:` guard at tts_engine.py line 178
skips the assignment: the call succeeds and the previously selected
voice survives, neither a first voice nor None. -/
theorem set_engine_keeps_voice_on_empty_pyttsx3_list :
    (TTSEngine.set_engine c10State "pyttsx3").2 = true ∧
    (TTSEngine.set_engine c10State "pyttsx3").1.activeVoice = some "old-voice" ∧
    ¬ (TTSEngine.set_engine c10State "pyttsx3").1.activeVoice = none := by decide

/-- C10 amended: a successful `set_engine` stores the requested engine
and resets the active voice to the first cached Piper voice for Piper
(None when the cache is empty), the first pyttsx3 voice for pyttsx3
(None when the voice query raises, and the previous voice kept unchanged
when the query returns an empty list), and None for direct speech. -/
theorem set_engine_default_voice_characterization :
    ∀ (s : ConfigState) (t : String),
      (TTSEngine.set_engine s t).2 = true →
      (TTSEngine.set_engine s t).1.activeEngine = some t ∧
      (t = "piper" →
        (TTSEngine.set_engine s t).1.activeVoice = s.piperVoices.head?) ∧
      (t = "pyttsx3" →
        (TTSEngine.set_engine s t).1.activeVoice =
          (match s.pyttsxVoices with
           | none => none
           | some [] => s.activeVoice
           | some (v :: _) => some v)) ∧
      (t = "direct" → (TTSEngine.set_engine s t).1.activeVoice = none) :=
  set_engine_success_voice

/-- Configuration state used by the C10 witness. -/
def c10WitState : ConfigState :=
  { activeEngine := none, activeVoice := some "prev", usePiper := false,
    useDirectSpeech := true, hasEngine := false, piperVoices := [],
    pyttsxVoices := none, setVoicePropOk := true, isSpeaking := false }

/-- Witness for C10 at a concrete successful switch to direct speech. -/
theorem set_engine_default_voice_characterization_witness :
    (TTSEngine.set_engine c10WitState "direct").1.activeEngine = some "direct" ∧
    (TTSEngine.set_engine c10WitState "direct").1.activeVoice = none :=
  ⟨(set_engine_default_voice_characterization c10WitState "direct" (by decide)).1,
   (set_engine_default_voice_characterization c10WitState "direct"
     (by decide)).2.2.2 rfl⟩

end ClaimTheorems
